import Mathlib

/-!
Shallow embedding of the Pomodoro timer core (timer state machine, engine
operations, request handler and IPC client retry policy) translated from the
Rust sources under `src/types/mod.rs`, `src/daemon/timer.rs`,
`src/daemon/ipc.rs` and `src/cli/client.rs`.

Machine integers (`u32` in the source) are modelled as `Nat` with an explicit
`% U32_MOD` wherever the source performs arithmetic that could overflow
(`pomodoro_count += 1`, `minutes * 60`); the guarded decrement in `tick`
cannot underflow and is modelled with truncated `Nat` subtraction under its
guard.
-/

namespace PomodoroSpec

/-- Modulus of `u32` arithmetic. -/
def U32_MOD : Nat := 2 ^ 32

/-- Rust `TimerPhase` from `src/types/mod.rs`. -/
inductive TimerPhase where
  | Stopped
  | Working
  | Breaking
  | LongBreaking
  | Paused
  deriving DecidableEq, Repr

/-- Rust `TimerPhase::as_str` from `src/types/mod.rs`. -/
def TimerPhase.as_str : TimerPhase → String
  | .Stopped => "stopped"
  | .Working => "working"
  | .Breaking => "breaking"
  | .LongBreaking => "long_breaking"
  | .Paused => "paused"

/-- Rust `TimerPhase::is_active` from `src/types/mod.rs`: Working, Breaking and
LongBreaking are the active phases. -/
def TimerPhase.is_active : TimerPhase → Bool
  | .Working => true
  | .Breaking => true
  | .LongBreaking => true
  | _ => false

/-- Rust `PomodoroConfig` from `src/types/mod.rs`. -/
structure PomodoroConfig where
  work_minutes : Nat
  break_minutes : Nat
  long_break_minutes : Nat
  auto_cycle : Bool
  focus_mode : Bool
  deriving DecidableEq, Repr

/-- Rust `PomodoroConfig::default` from `src/types/mod.rs`. -/
def PomodoroConfig.default : PomodoroConfig :=
  { work_minutes := 25
    break_minutes := 5
    long_break_minutes := 15
    auto_cycle := false
    focus_mode := false }

/-- Rust `PomodoroConfig::validate` from `src/types/mod.rs`: range checks on the
three minute fields, returning the Japanese error message of the first field
that fails. -/
def PomodoroConfig.validate (c : PomodoroConfig) : Except String Unit :=
  if c.work_minutes < 1 ∨ 120 < c.work_minutes then
    .error "作業時間は1-120分の範囲で指定してください"
  else if c.break_minutes < 1 ∨ 60 < c.break_minutes then
    .error "休憩時間は1-60分の範囲で指定してください"
  else if c.long_break_minutes < 1 ∨ 60 < c.long_break_minutes then
    .error "長い休憩時間は1-60分の範囲で指定してください"
  else
    .ok ()

/-- Rust `TimerState` from `src/types/mod.rs`. -/
structure TimerState where
  phase : TimerPhase
  remaining_seconds : Nat
  pomodoro_count : Nat
  task_name : Option String
  config : PomodoroConfig
  previous_phase : Option TimerPhase
  deriving DecidableEq, Repr

/-- Rust `TimerState::new` from `src/types/mod.rs`. -/
def TimerState.new (config : PomodoroConfig) : TimerState :=
  { phase := .Stopped
    remaining_seconds := 0
    pomodoro_count := 0
    task_name := none
    config := config
    previous_phase := none }

/-- Rust `TimerState::start_working` from `src/types/mod.rs`. -/
def TimerState.start_working (s : TimerState) (task_name : Option String) : TimerState :=
  { s with
    phase := .Working
    remaining_seconds := s.config.work_minutes * 60 % U32_MOD
    task_name := task_name
    previous_phase := none }

/-- Rust `TimerState::start_breaking` from `src/types/mod.rs`: long break when the
pomodoro count is a positive multiple of 4, short break otherwise. -/
def TimerState.start_breaking (s : TimerState) : TimerState :=
  if 0 < s.pomodoro_count ∧ s.pomodoro_count % 4 = 0 then
    { s with
      phase := .LongBreaking
      remaining_seconds := s.config.long_break_minutes * 60 % U32_MOD
      previous_phase := none }
  else
    { s with
      phase := .Breaking
      remaining_seconds := s.config.break_minutes * 60 % U32_MOD
      previous_phase := none }

/-- Rust `TimerState::pause` from `src/types/mod.rs`. -/
def TimerState.pause (s : TimerState) : TimerState :=
  if s.phase.is_active then
    { s with previous_phase := some s.phase, phase := .Paused }
  else
    s

/-- Rust `TimerState::resume` from `src/types/mod.rs`: restores `previous_phase`,
falling back to Working when it is unset. -/
def TimerState.resume (s : TimerState) : TimerState :=
  if s.phase = TimerPhase.Paused then
    match s.previous_phase with
    | some prev => { s with phase := prev, previous_phase := none }
    | none => { s with phase := .Working }
  else
    s

/-- Rust `TimerState::stop` from `src/types/mod.rs`. -/
def TimerState.stop (s : TimerState) : TimerState :=
  { s with
    phase := .Stopped
    remaining_seconds := 0
    task_name := none
    previous_phase := none }

/-- Rust `TimerState::tick` from `src/types/mod.rs`: decrement the remaining
seconds when positive and report whether they are now zero.  Returns the
completion flag together with the updated state. -/
def TimerState.tick (s : TimerState) : Bool × TimerState :=
  let s' :=
    if 0 < s.remaining_seconds then
      { s with remaining_seconds := s.remaining_seconds - 1 }
    else
      s
  (s'.remaining_seconds == 0, s')

/-- Rust `TimerState::is_running` from `src/types/mod.rs`. -/
def TimerState.is_running (s : TimerState) : Bool :=
  s.phase.is_active

/-- Rust `TimerState::is_paused` from `src/types/mod.rs`. -/
def TimerState.is_paused (s : TimerState) : Bool :=
  s.phase == TimerPhase.Paused

/-- Rust `TimerState::increment_pomodoro_count` from `src/types/mod.rs`
(`u32` increment, hence the wrap-around). -/
def TimerState.increment_pomodoro_count (s : TimerState) : TimerState :=
  { s with pomodoro_count := (s.pomodoro_count + 1) % U32_MOD }

/-- Iterated `tick`, discarding the completion flags (used to state the
repeated-tick part of the tick specification). -/
def tickN : Nat → TimerState → TimerState
  | 0, s => s
  | n + 1, s => tickN n (s.tick).2

/-- Rust `TimerEvent` from `src/daemon/timer.rs`. -/
inductive TimerEvent where
  | WorkStarted (task_name : Option String)
  | WorkCompleted (pomodoro_count : Nat) (task_name : Option String)
  | BreakStarted (is_long_break : Bool)
  | BreakCompleted (is_long_break : Bool)
  | Paused
  | Resumed
  | Stopped
  | Tick (remaining_seconds : Nat)
  deriving DecidableEq, Repr

/-- One statement of an engine routine: either a state mutation or an event
emission.  Scripts over these steps record the exact interleaving of
mutations and channel sends performed by the Rust code. -/
inductive EngineStep where
  | mutate (s : TimerState)
  | emit (e : TimerEvent)
  deriving DecidableEq, Repr

/-- Runs a script from an initial state: the resulting state is that of the
last mutation and the emitted events are collected in order. -/
def runScript (s : TimerState) (steps : List EngineStep) : TimerState × List TimerEvent :=
  steps.foldl
    (fun acc step =>
      match step with
      | .mutate s' => (s', acc.2)
      | .emit e => (acc.1, acc.2 ++ [e]))
    (s, [])

namespace TimerEngine

/-- Rust `TimerEngine::handle_timer_complete` from `src/daemon/timer.rs`, rendered
statement by statement as a script of mutations and emissions:
on a completed Working phase, increment the count, emit `WorkCompleted` with
the post-increment count and current task, start the break, then emit
`BreakStarted`; on a completed break, emit `BreakCompleted` and then either
auto-cycle into a new work session (emitting `WorkStarted`) or stop. -/
def handle_timer_complete_script (s : TimerState) : List EngineStep :=
  match s.phase with
  | .Working =>
    let s1 := s.increment_pomodoro_count
    let s2 := s1.start_breaking
    [EngineStep.mutate s1,
     EngineStep.emit (TimerEvent.WorkCompleted s1.pomodoro_count s1.task_name),
     EngineStep.mutate s2,
     EngineStep.emit (TimerEvent.BreakStarted (s2.phase == TimerPhase.LongBreaking))]
  | .Breaking | .LongBreaking =>
    let is_long_break := s.phase == TimerPhase.LongBreaking
    if s.config.auto_cycle then
      let s1 := s.start_working s.task_name
      [EngineStep.emit (TimerEvent.BreakCompleted is_long_break),
       EngineStep.mutate s1,
       EngineStep.emit (TimerEvent.WorkStarted s1.task_name)]
    else
      [EngineStep.emit (TimerEvent.BreakCompleted is_long_break),
       EngineStep.mutate s.stop]
  | _ => []

/-- Rust `TimerEngine::handle_timer_complete`: final state and ordered event list
obtained by running the script. -/
def handle_timer_complete (s : TimerState) : TimerState × List TimerEvent :=
  runScript s (handle_timer_complete_script s)

/-- Rust `TimerEngine::start` from `src/daemon/timer.rs`.  The third component is
the error message of the `bail!`, `none` on success; on error the state is
returned untouched and no event is emitted, exactly as in the source where
the bail happens before any mutation. -/
def start (s : TimerState) (task_name : Option String) :
    TimerState × List TimerEvent × Option String :=
  if s.is_running then
    (s, [], some "タイマーは既に実行中です")
  else
    (s.start_working task_name, [TimerEvent.WorkStarted task_name], none)

/-- Rust `TimerEngine::pause` from `src/daemon/timer.rs`. -/
def pause (s : TimerState) : TimerState × List TimerEvent × Option String :=
  if !s.is_running then
    (s, [], some "タイマーは実行されていません")
  else
    (s.pause, [TimerEvent.Paused], none)

/-- Rust `TimerEngine::resume` from `src/daemon/timer.rs`. -/
def resume (s : TimerState) : TimerState × List TimerEvent × Option String :=
  if !s.is_paused then
    (s, [], some "タイマーは一時停止していません")
  else
    (s.resume, [TimerEvent.Resumed], none)

/-- Rust `TimerEngine::stop` from `src/daemon/timer.rs`. -/
def stop (s : TimerState) : TimerState × List TimerEvent × Option String :=
  if !s.is_running && !s.is_paused then
    (s, [], some "タイマーは実行されていません")
  else
    (s.stop, [TimerEvent.Stopped], none)

end TimerEngine

/-- Rust `StartParams` from `src/types/mod.rs`: optional overrides carried by a
Start request. -/
structure StartParams where
  work_minutes : Option Nat
  break_minutes : Option Nat
  long_break_minutes : Option Nat
  task_name : Option String
  auto_cycle : Option Bool
  focus_mode : Option Bool
  deriving DecidableEq, Repr

/-- Rust `StartParams::default` (all fields absent). -/
def StartParams.default : StartParams :=
  { work_minutes := none
    break_minutes := none
    long_break_minutes := none
    task_name := none
    auto_cycle := none
    focus_mode := none }

/-- Rust `ResponseData` from `src/types/mod.rs`. -/
structure ResponseData where
  state : Option String
  remaining_seconds : Option Nat
  pomodoro_count : Option Nat
  task_name : Option String
  deriving DecidableEq, Repr

/-- Rust `ResponseData::from_timer_state` from `src/types/mod.rs`. -/
def ResponseData.from_timer_state (s : TimerState) : ResponseData :=
  { state := some s.phase.as_str
    remaining_seconds := some s.remaining_seconds
    pomodoro_count := some s.pomodoro_count
    task_name := s.task_name }

/-- Rust `IpcResponse` from `src/types/mod.rs`. -/
structure IpcResponse where
  status : String
  message : String
  data : Option ResponseData
  deriving DecidableEq, Repr

/-- Rust `IpcResponse::success` from `src/types/mod.rs`. -/
def IpcResponse.success (message : String) (data : Option ResponseData) : IpcResponse :=
  { status := "success", message := message, data := data }

/-- Rust `IpcResponse::error` from `src/types/mod.rs`. -/
def IpcResponse.mk_error (message : String) : IpcResponse :=
  { status := "error", message := message, data := none }

namespace RequestHandler

/-- The successive `if let Some(..)` merges of `RequestHandler::handle_start`
(`src/daemon/ipc.rs`): overrides present in the params replace the
corresponding fields of a copy of the current engine config. -/
def merge_config (c : PomodoroConfig) (p : StartParams) : PomodoroConfig :=
  { work_minutes := p.work_minutes.getD c.work_minutes
    break_minutes := p.break_minutes.getD c.break_minutes
    long_break_minutes := p.long_break_minutes.getD c.long_break_minutes
    auto_cycle := p.auto_cycle.getD c.auto_cycle
    focus_mode := p.focus_mode.getD c.focus_mode }

/-- The guard of the merge-and-validate block in
`RequestHandler::handle_start`: it runs only when at least one override
field is present. -/
def has_custom (p : StartParams) : Bool :=
  p.work_minutes.isSome || p.break_minutes.isSome || p.long_break_minutes.isSome
    || p.auto_cycle.isSome || p.focus_mode.isSome

/-- The engine call and response construction at the end of
`RequestHandler::handle_start`: engine success yields a success response
built from the post-mutation state, engine failure is converted 1:1 into an
error response.  Returns the response together with the resulting engine
state and emitted events. -/
def start_engine_call (s : TimerState) (p : StartParams) :
    IpcResponse × TimerState × List TimerEvent :=
  match TimerEngine.start s p.task_name with
  | (s', events, none) =>
    (IpcResponse.success "タイマーを開始しました" (some (ResponseData.from_timer_state s')),
     s', events)
  | (s', events, some e) =>
    (IpcResponse.mk_error e, s', events)

/-- Rust `RequestHandler::handle_start` from `src/daemon/ipc.rs`: when any
override is present, merge it into a copy of the current config and validate
the copy, answering with the validation error (engine untouched) when it
fails; otherwise (and when no override is present) call the engine. -/
def handle_start (s : TimerState) (p : StartParams) :
    IpcResponse × TimerState × List TimerEvent :=
  if has_custom p then
    match (merge_config s.config p).validate with
    | .error e => (IpcResponse.mk_error e, s, [])
    | .ok _ => start_engine_call s p
  else
    start_engine_call s p

end RequestHandler

/-- One connection attempt of `IpcClient::send_request`
(`src/cli/client.rs`), abstracted over the transport: either some step up to
and including deserialization fails with a message, or a full `IpcResponse`
is received. -/
inductive AttemptOutcome where
  | failure (msg : String)
  | received (response : IpcResponse)
  deriving DecidableEq, Repr

/-- Rust `MAX_RETRIES` from `src/cli/client.rs`. -/
def MAX_RETRIES : Nat := 3

/-- Rust `RETRY_DELAY_MS` from `src/cli/client.rs`. -/
def RETRY_DELAY_MS : Nat := 500

/-- The pure tail of `IpcClient::send_request` (`src/cli/client.rs`): a
transport failure is an error, a received response with status `"error"` is
turned into an error carrying the message of the server (`bail!`), any other
response is returned as success. -/
def send_request (o : AttemptOutcome) : Except String IpcResponse :=
  match o with
  | .failure m => .error m
  | .received r => if r.status == "error" then .error r.message else .ok r

/-- The retry loop of `IpcClient::send_request_with_retry`
(`src/cli/client.rs`), iterating over the 1-based attempt numbers still to
run; the second argument is the last observed error message.  A success
returns immediately; a failure on a non-final attempt sleeps
`RETRY_DELAY_MS * attempt` and retries; after the final attempt the last
error is surfaced.  Returns the final result, the number of attempts
actually made and the list of backoff delays slept. -/
def retry_go (outcomes : Nat → AttemptOutcome) :
    List Nat → String → Except String IpcResponse × Nat × List Nat
  | [], last => (.error last, 0, [])
  | attempt :: rest, _ =>
    match send_request (outcomes attempt) with
    | .ok r => (.ok r, 1, [])
    | .error e =>
      match rest with
      | [] => (.error e, 1, [])
      | _ :: _ =>
        let tail := retry_go outcomes rest e
        (tail.1, tail.2.1 + 1, RETRY_DELAY_MS * attempt :: tail.2.2)

/-- Rust `IpcClient::send_request_with_retry` from `src/cli/client.rs`,
parameterised by the outcome of each attempt: the attempt numbers are
`1..=MAX_RETRIES` as in the for loop of the source. -/
def send_request_with_retry (outcomes : Nat → AttemptOutcome) :
    Except String IpcResponse × Nat × List Nat :=
  retry_go outcomes (List.range' 1 MAX_RETRIES) ""

/-! Helper lemmas shared by the claim theorems. -/

/-- A tick at zero remaining seconds leaves the state unchanged and reports
completion. -/
lemma tick_at_zero (s : TimerState) (h : s.remaining_seconds = 0) :
    (s.tick).2 = s ∧ (s.tick).1 = true := by
  simp [TimerState.tick, h]

/-- Characterisation of a passing config validation as the three range
checks. -/
lemma validate_ok_iff (c : PomodoroConfig) :
    c.validate = .ok () ↔
      1 ≤ c.work_minutes ∧ c.work_minutes ≤ 120 ∧
      1 ≤ c.break_minutes ∧ c.break_minutes ≤ 60 ∧
      1 ≤ c.long_break_minutes ∧ c.long_break_minutes ≤ 60 := by
  unfold PomodoroConfig.validate
  split_ifs with h1 h2 h3 <;> simp <;> omega

/-- A concrete timer state used by the witnesses: freshly created from the
default config and started on a task. -/
def sampleWorking : TimerState :=
  (TimerState.new PomodoroConfig.default).start_working (some "Task")

/-! Claim theorems. -/

/-- C2: `tick()` decrements `remaining_seconds` by exactly 1 when positive
and leaves it unchanged at 0, returns true iff `remaining_seconds` is 0
after the call, and from `remaining_seconds = 0` any number of repeated
ticks keeps the field at 0 with every call returning true (no underflow). -/
theorem tick_decrements_and_is_idempotent_at_zero (s : TimerState) :
    (0 < s.remaining_seconds →
      (s.tick).2.remaining_seconds = s.remaining_seconds - 1) ∧
    (s.remaining_seconds = 0 → (s.tick).2 = s) ∧
    ((s.tick).1 = true ↔ (s.tick).2.remaining_seconds = 0) ∧
    (s.remaining_seconds = 0 → ∀ n : Nat,
      (tickN n s).remaining_seconds = 0 ∧ ((tickN n s).tick).1 = true) := by
  refine ⟨?_, ?_, ?_, ?_⟩
  · intro h
    simp [TimerState.tick, h]
  · intro h
    exact (tick_at_zero s h).1
  · simp [TimerState.tick]
  · intro h n
    induction n generalizing s with
    | zero => exact ⟨h, (tick_at_zero s h).2⟩
    | succ n ih =>
      have hz : (s.tick).2.remaining_seconds = 0 := by
        rw [(tick_at_zero s h).1]; exact h
      simpa [tickN] using ih (s.tick).2 hz

/-- Witness for C2 at a concrete state with zero remaining seconds. -/
theorem tick_decrements_and_is_idempotent_at_zero_witness :
    (tickN 5 (TimerState.new PomodoroConfig.default)).remaining_seconds = 0 ∧
    ((tickN 5 (TimerState.new PomodoroConfig.default)).tick).1 = true :=
  (tick_decrements_and_is_idempotent_at_zero
    (TimerState.new PomodoroConfig.default)).2.2.2 rfl 5

/-- C5: whenever `stop()` succeeds (active or paused phase), the resulting
state has phase Stopped, zero remaining seconds, no task name and no
previous phase, while `pomodoro_count` and `config` keep their prior
values. -/
theorem stop_resets_and_preserves_count (s : TimerState)
    (h : s.phase.is_active = true ∨ s.phase = TimerPhase.Paused) :
    (TimerEngine.stop s).2.2 = none ∧
    (TimerEngine.stop s).1.phase = TimerPhase.Stopped ∧
    (TimerEngine.stop s).1.remaining_seconds = 0 ∧
    (TimerEngine.stop s).1.task_name = none ∧
    (TimerEngine.stop s).1.previous_phase = none ∧
    (TimerEngine.stop s).1.pomodoro_count = s.pomodoro_count ∧
    (TimerEngine.stop s).1.config = s.config := by
  cases hp : s.phase <;>
    simp [hp, TimerPhase.is_active] at h <;>
    simp [TimerEngine.stop, TimerState.is_running, TimerState.is_paused,
      TimerState.stop, TimerPhase.is_active, hp]

/-- Witness for C5 at a concrete working state. -/
theorem stop_resets_and_preserves_count_witness :
    (TimerEngine.stop sampleWorking).1.phase = TimerPhase.Stopped ∧
    (TimerEngine.stop sampleWorking).1.pomodoro_count = sampleWorking.pomodoro_count :=
  ⟨(stop_resets_and_preserves_count sampleWorking (Or.inl rfl)).2.1,
   (stop_resets_and_preserves_count sampleWorking (Or.inl rfl)).2.2.2.2.2.1⟩

/-- C6: pausing from any active phase and then resuming restores exactly
that phase and leaves remaining seconds, pomodoro count, task name and
config untouched; resuming a paused state whose `previous_phase` is unset
falls back to Working. -/
theorem pause_resume_roundtrip (s t : TimerState)
    (h : s.phase.is_active = true)
    (ht : t.phase = TimerPhase.Paused)
    (hp : t.previous_phase = none) :
    ((TimerEngine.resume (TimerEngine.pause s).1).1.phase = s.phase ∧
     (TimerEngine.resume (TimerEngine.pause s).1).1.remaining_seconds = s.remaining_seconds ∧
     (TimerEngine.resume (TimerEngine.pause s).1).1.pomodoro_count = s.pomodoro_count ∧
     (TimerEngine.resume (TimerEngine.pause s).1).1.task_name = s.task_name ∧
     (TimerEngine.resume (TimerEngine.pause s).1).1.config = s.config) ∧
    (TimerEngine.resume t).1.phase = TimerPhase.Working := by
  constructor
  · cases hph : s.phase <;> simp [hph, TimerPhase.is_active] at h <;>
      simp [TimerEngine.pause, TimerEngine.resume, TimerState.pause,
        TimerState.resume, TimerState.is_running, TimerState.is_paused,
        TimerPhase.is_active, hph]
  · simp [TimerEngine.resume, TimerState.resume, TimerState.is_paused, ht, hp]

/-- Witness for C6: round trip at a concrete working state, and fallback at
a concrete paused state without a previous phase. -/
theorem pause_resume_roundtrip_witness :
    (TimerEngine.resume (TimerEngine.pause sampleWorking).1).1.phase = sampleWorking.phase ∧
    (TimerEngine.resume
      { sampleWorking with phase := TimerPhase.Paused, previous_phase := none }).1.phase
        = TimerPhase.Working :=
  ⟨(pause_resume_roundtrip sampleWorking
      { sampleWorking with phase := TimerPhase.Paused, previous_phase := none }
      rfl rfl rfl).1.1,
   (pause_resume_roundtrip sampleWorking
      { sampleWorking with phase := TimerPhase.Paused, previous_phase := none }
      rfl rfl rfl).2⟩

/-- The final state of a completed work phase is reached by incrementing the
count and then starting the break. -/
lemma handle_timer_complete_working_state (s : TimerState)
    (hw : s.phase = TimerPhase.Working) :
    (TimerEngine.handle_timer_complete s).1 =
      (s.increment_pomodoro_count).start_breaking := by
  simp [TimerEngine.handle_timer_complete, TimerEngine.handle_timer_complete_script,
    hw, runScript]

/-- C1: after a work completion, `handle_timer_complete` increments
`pomodoro_count` (as a `u32`); when the post-increment count is a positive
multiple of 4 the state enters LongBreaking with
`long_break_minutes * 60` remaining, and for every other positive count it
enters Breaking with `break_minutes * 60` remaining — the check being made
on the post-increment count stored in the resulting state. -/
theorem work_completion_long_break_rule (s : TimerState)
    (hw : s.phase = TimerPhase.Working)
    (hb : s.config.break_minutes * 60 < U32_MOD)
    (hlb : s.config.long_break_minutes * 60 < U32_MOD) :
    (TimerEngine.handle_timer_complete s).1.pomodoro_count
        = (s.pomodoro_count + 1) % U32_MOD ∧
    (0 < (TimerEngine.handle_timer_complete s).1.pomodoro_count ∧
        (TimerEngine.handle_timer_complete s).1.pomodoro_count % 4 = 0 →
      (TimerEngine.handle_timer_complete s).1.phase = TimerPhase.LongBreaking ∧
      (TimerEngine.handle_timer_complete s).1.remaining_seconds
        = s.config.long_break_minutes * 60) ∧
    (0 < (TimerEngine.handle_timer_complete s).1.pomodoro_count ∧
        ¬(TimerEngine.handle_timer_complete s).1.pomodoro_count % 4 = 0 →
      (TimerEngine.handle_timer_complete s).1.phase = TimerPhase.Breaking ∧
      (TimerEngine.handle_timer_complete s).1.remaining_seconds
        = s.config.break_minutes * 60) := by
  rw [handle_timer_complete_working_state s hw]
  by_cases hc : 0 < (s.pomodoro_count + 1) % U32_MOD ∧ (s.pomodoro_count + 1) % U32_MOD % 4 = 0
  · simp [TimerState.start_breaking, TimerState.increment_pomodoro_count, hc,
      Nat.mod_eq_of_lt hlb]
  · simp only [TimerState.start_breaking, TimerState.increment_pomodoro_count, hc,
      if_false]
    simp [Nat.mod_eq_of_lt hb]

/-- Witness for C1: completing work with 3 prior pomodoros under the default
config enters a long break of 15 minutes. -/
theorem work_completion_long_break_rule_witness :
    (TimerEngine.handle_timer_complete { sampleWorking with pomodoro_count := 3 }).1.phase
        = TimerPhase.LongBreaking ∧
    (TimerEngine.handle_timer_complete { sampleWorking with pomodoro_count := 3 }).1.remaining_seconds
        = 15 * 60 :=
  (work_completion_long_break_rule { sampleWorking with pomodoro_count := 3 }
    rfl (by decide) (by decide)).2.1 (by decide)

/-- C3: engine guard conditions — `start` errors iff the phase is active (in
particular it succeeds while Paused), `pause` errors iff the phase is not
active, `resume` errors iff the phase is not Paused, `stop` errors iff the
phase is neither active nor Paused; every erroring operation returns the
state unchanged and emits no event. -/
theorem engine_guard_errors (s : TimerState) (task : Option String) :
    ((TimerEngine.start s task).2.2.isSome = true ↔ s.phase.is_active = true) ∧
    ((TimerEngine.start s task).2.2.isSome = true →
      (TimerEngine.start s task).1 = s ∧ (TimerEngine.start s task).2.1 = []) ∧
    (s.phase = TimerPhase.Paused → (TimerEngine.start s task).2.2 = none) ∧
    ((TimerEngine.pause s).2.2.isSome = true ↔ ¬s.phase.is_active = true) ∧
    ((TimerEngine.pause s).2.2.isSome = true →
      (TimerEngine.pause s).1 = s ∧ (TimerEngine.pause s).2.1 = []) ∧
    ((TimerEngine.resume s).2.2.isSome = true ↔ ¬s.phase = TimerPhase.Paused) ∧
    ((TimerEngine.resume s).2.2.isSome = true →
      (TimerEngine.resume s).1 = s ∧ (TimerEngine.resume s).2.1 = []) ∧
    ((TimerEngine.stop s).2.2.isSome = true ↔
      ¬s.phase.is_active = true ∧ ¬s.phase = TimerPhase.Paused) ∧
    ((TimerEngine.stop s).2.2.isSome = true →
      (TimerEngine.stop s).1 = s ∧ (TimerEngine.stop s).2.1 = []) := by
  cases hp : s.phase <;>
    simp [TimerEngine.start, TimerEngine.pause, TimerEngine.resume,
      TimerEngine.stop, TimerState.is_running, TimerState.is_paused,
      TimerPhase.is_active, hp]

/-- Witness for C3: on a concrete stopped state, `pause` errors and leaves
the state untouched, while a concrete paused state does not block `start`. -/
theorem engine_guard_errors_witness :
    ((TimerEngine.pause (TimerState.new PomodoroConfig.default)).1
        = TimerState.new PomodoroConfig.default) ∧
    (TimerEngine.start
      { sampleWorking with phase := TimerPhase.Paused } none).2.2 = none :=
  ⟨((engine_guard_errors (TimerState.new PomodoroConfig.default) none).2.2.2.2.1
      (by decide)).1,
   (engine_guard_errors { sampleWorking with phase := TimerPhase.Paused }
      none).2.2.1 rfl⟩

/-- C4: on a completed Working phase, the engine script is exactly: mutate
(increment the count), emit `WorkCompleted` with the post-increment count
and the current task name, mutate (enter the break), emit `BreakStarted`
with the flag matching the entered phase — so each event follows its
mutation and the two events are emitted in that order. -/
theorem work_complete_emission_order (s : TimerState)
    (hw : s.phase = TimerPhase.Working) :
    TimerEngine.handle_timer_complete_script s =
      [EngineStep.mutate s.increment_pomodoro_count,
       EngineStep.emit (TimerEvent.WorkCompleted ((s.pomodoro_count + 1) % U32_MOD) s.task_name),
       EngineStep.mutate (s.increment_pomodoro_count).start_breaking,
       EngineStep.emit (TimerEvent.BreakStarted
         ((s.increment_pomodoro_count).start_breaking.phase == TimerPhase.LongBreaking))] ∧
    (TimerEngine.handle_timer_complete s).2 =
      [TimerEvent.WorkCompleted ((s.pomodoro_count + 1) % U32_MOD) s.task_name,
       TimerEvent.BreakStarted
         ((s.increment_pomodoro_count).start_breaking.phase == TimerPhase.LongBreaking)] := by
  constructor
  · simp [TimerEngine.handle_timer_complete_script, hw,
      TimerState.increment_pomodoro_count]
  · simp [TimerEngine.handle_timer_complete, TimerEngine.handle_timer_complete_script,
      hw, runScript, TimerState.increment_pomodoro_count]

/-- Witness for C4 at a concrete working state. -/
theorem work_complete_emission_order_witness :
    (TimerEngine.handle_timer_complete sampleWorking).2 =
      [TimerEvent.WorkCompleted 1 (some "Task"), TimerEvent.BreakStarted false] := by
  have h := (work_complete_emission_order sampleWorking rfl).2
  rw [h]
  decide

/-- Shape of the engine-call tail of `handle_start`: the stored config is
never replaced, and a success response implies the remaining seconds were
set from the pre-existing engine `work_minutes`. -/
lemma start_engine_call_config (s : TimerState) (p : StartParams) :
    (RequestHandler.start_engine_call s p).2.1.config = s.config ∧
    ((RequestHandler.start_engine_call s p).1.status = "success" →
      (RequestHandler.start_engine_call s p).2.1.remaining_seconds
        = s.config.work_minutes * 60 % U32_MOD) := by
  by_cases hrun : s.is_running = true
  · simp [RequestHandler.start_engine_call, TimerEngine.start, hrun,
      IpcResponse.mk_error]
  · simp [RequestHandler.start_engine_call, TimerEngine.start, hrun,
      TimerState.start_working, IpcResponse.success]

/-- C7: `handle_start` under a valid current config — any out-of-range
minute override produces the error response naming the range of that field, with
the engine never started and the state unchanged; a merged config that
validates leads to the engine call, whose failure (timer already running)
is passed through as an error response carrying the engine message
unchanged. -/
theorem handle_start_validates_and_passes_engine_errors
    (s : TimerState) (p : StartParams)
    (hvalid : s.config.validate = .ok ()) :
    ((RequestHandler.merge_config s.config p).work_minutes < 1 ∨
        120 < (RequestHandler.merge_config s.config p).work_minutes →
      RequestHandler.handle_start s p =
        (IpcResponse.mk_error "作業時間は1-120分の範囲で指定してください", s, [])) ∧
    (1 ≤ (RequestHandler.merge_config s.config p).work_minutes ∧
        (RequestHandler.merge_config s.config p).work_minutes ≤ 120 →
      ((RequestHandler.merge_config s.config p).break_minutes < 1 ∨
        60 < (RequestHandler.merge_config s.config p).break_minutes) →
      RequestHandler.handle_start s p =
        (IpcResponse.mk_error "休憩時間は1-60分の範囲で指定してください", s, [])) ∧
    (1 ≤ (RequestHandler.merge_config s.config p).work_minutes ∧
        (RequestHandler.merge_config s.config p).work_minutes ≤ 120 ∧
        1 ≤ (RequestHandler.merge_config s.config p).break_minutes ∧
        (RequestHandler.merge_config s.config p).break_minutes ≤ 60 →
      ((RequestHandler.merge_config s.config p).long_break_minutes < 1 ∨
        60 < (RequestHandler.merge_config s.config p).long_break_minutes) →
      RequestHandler.handle_start s p =
        (IpcResponse.mk_error "長い休憩時間は1-60分の範囲で指定してください", s, [])) ∧
    ((RequestHandler.merge_config s.config p).validate = .ok () →
      s.phase.is_active = true →
      RequestHandler.handle_start s p =
        (IpcResponse.mk_error "タイマーは既に実行中です", s, [])) := by
  obtain ⟨hw1, hw2, hb1, hb2, hl1, hl2⟩ := (validate_ok_iff s.config).1 hvalid
  refine ⟨?_, ?_, ?_, ?_⟩
  · intro hw
    have hsome : p.work_minutes.isSome = true := by
      cases hpw : p.work_minutes with
      | none =>
        exfalso
        simp [RequestHandler.merge_config, hpw] at hw
        omega
      | some w => rfl
    have hcustom : RequestHandler.has_custom p = true := by
      simp [RequestHandler.has_custom, hsome]
    have hval : (RequestHandler.merge_config s.config p).validate =
        .error "作業時間は1-120分の範囲で指定してください" := by
      unfold PomodoroConfig.validate
      rw [if_pos hw]
    simp [RequestHandler.handle_start, hcustom, hval]
  · intro hwok hb
    have hsome : p.break_minutes.isSome = true := by
      cases hpb : p.break_minutes with
      | none =>
        exfalso
        simp [RequestHandler.merge_config, hpb] at hb
        omega
      | some b => rfl
    have hcustom : RequestHandler.has_custom p = true := by
      simp [RequestHandler.has_custom, hsome]
    have hval : (RequestHandler.merge_config s.config p).validate =
        .error "休憩時間は1-60分の範囲で指定してください" := by
      unfold PomodoroConfig.validate
      rw [if_neg (by omega), if_pos hb]
    simp [RequestHandler.handle_start, hcustom, hval]
  · intro hok hl
    have hsome : p.long_break_minutes.isSome = true := by
      cases hpl : p.long_break_minutes with
      | none =>
        exfalso
        simp [RequestHandler.merge_config, hpl] at hl
        omega
      | some l => rfl
    have hcustom : RequestHandler.has_custom p = true := by
      simp [RequestHandler.has_custom, hsome]
    have hval : (RequestHandler.merge_config s.config p).validate =
        .error "長い休憩時間は1-60分の範囲で指定してください" := by
      unfold PomodoroConfig.validate
      rw [if_neg (by omega), if_neg (by omega), if_pos hl]
    simp [RequestHandler.handle_start, hcustom, hval]
  · intro hmok hact
    have hstart : TimerEngine.start s p.task_name =
        (s, [], some "タイマーは既に実行中です") := by
      simp [TimerEngine.start, TimerState.is_running, hact]
    by_cases hcustom : RequestHandler.has_custom p = true
    · simp [RequestHandler.handle_start, hcustom, hmok,
        RequestHandler.start_engine_call, hstart]
    · simp [RequestHandler.handle_start, hcustom,
        RequestHandler.start_engine_call, hstart]

/-- Witness for C7: with the default (valid) config, a Start request
overriding `workMinutes` to 0 is rejected with the work-range message and
the state is untouched, and a Start while Working is answered with the
already-running message of the engine. -/
theorem handle_start_validates_and_passes_engine_errors_witness :
    RequestHandler.handle_start (TimerState.new PomodoroConfig.default)
        { StartParams.default with work_minutes := some 0 } =
      (IpcResponse.mk_error "作業時間は1-120分の範囲で指定してください",
       TimerState.new PomodoroConfig.default, []) ∧
    RequestHandler.handle_start sampleWorking StartParams.default =
      (IpcResponse.mk_error "タイマーは既に実行中です", sampleWorking, []) :=
  ⟨(handle_start_validates_and_passes_engine_errors
      (TimerState.new PomodoroConfig.default)
      { StartParams.default with work_minutes := some 0 } rfl).1 (by decide),
   (handle_start_validates_and_passes_engine_errors
      sampleWorking StartParams.default rfl).2.2.2 rfl rfl⟩

/-- C10: `handle_start` never modifies the stored engine configuration —
after any Start request the config of the state equals its prior value — and a
successful Start sets the remaining seconds from the pre-existing
`work_minutes`, not from any override. -/
theorem handle_start_never_stores_merged_config (s : TimerState) (p : StartParams) :
    (RequestHandler.handle_start s p).2.1.config = s.config ∧
    ((RequestHandler.handle_start s p).1.status = "success" →
      (RequestHandler.handle_start s p).2.1.remaining_seconds
        = s.config.work_minutes * 60 % U32_MOD) := by
  by_cases hcustom : RequestHandler.has_custom p = true
  · rcases hm : (RequestHandler.merge_config s.config p).validate with e | u
    · simp [RequestHandler.handle_start, hcustom, hm, IpcResponse.mk_error]
    · simpa [RequestHandler.handle_start, hcustom, hm] using
        start_engine_call_config s p
  · simpa [RequestHandler.handle_start, hcustom] using
      start_engine_call_config s p

/-- Witness for C10: starting with an overridden `workMinutes` of 50 under
the default config still counts down from 25 minutes. -/
theorem handle_start_never_stores_merged_config_witness :
    (RequestHandler.handle_start (TimerState.new PomodoroConfig.default)
        { StartParams.default with work_minutes := some 50 }).2.1.config
      = PomodoroConfig.default ∧
    (RequestHandler.handle_start (TimerState.new PomodoroConfig.default)
        { StartParams.default with work_minutes := some 50 }).2.1.remaining_seconds
      = 25 * 60 := by
  have h := handle_start_never_stores_merged_config
    (TimerState.new PomodoroConfig.default)
    { StartParams.default with work_minutes := some 50 }
  exact ⟨h.1, by rw [h.2 (by decide)]; rfl⟩

/-- C8: the client makes at most `MAX_RETRIES = 3` attempts; a failed
non-final attempt (transport failure or error-status response alike) is
followed by a backoff of `RETRY_DELAY_MS * attempt`; after the cap the last
observed error message is surfaced; and a received response with status
`"error"` is always turned into an error carrying the message of the server,
never a success. -/
theorem client_retry_policy (outcomes : Nat → AttemptOutcome) :
    (send_request_with_retry outcomes).2.1 ≤ MAX_RETRIES ∧
    (∀ r, send_request (outcomes 1) = .ok r →
      send_request_with_retry outcomes = (.ok r, 1, [])) ∧
    (∀ e1 r, send_request (outcomes 1) = .error e1 →
      send_request (outcomes 2) = .ok r →
      send_request_with_retry outcomes = (.ok r, 2, [RETRY_DELAY_MS * 1])) ∧
    (∀ e1 e2 r, send_request (outcomes 1) = .error e1 →
      send_request (outcomes 2) = .error e2 →
      send_request (outcomes 3) = .ok r →
      send_request_with_retry outcomes =
        (.ok r, 3, [RETRY_DELAY_MS * 1, RETRY_DELAY_MS * 2])) ∧
    (∀ e1 e2 e3, send_request (outcomes 1) = .error e1 →
      send_request (outcomes 2) = .error e2 →
      send_request (outcomes 3) = .error e3 →
      send_request_with_retry outcomes =
        (.error e3, 3, [RETRY_DELAY_MS * 1, RETRY_DELAY_MS * 2])) ∧
    (∀ r : IpcResponse, r.status = "error" →
      send_request (AttemptOutcome.received r) = .error r.message) := by
  have hsr : send_request_with_retry outcomes = retry_go outcomes [1, 2, 3] "" := rfl
  refine ⟨?_, ?_, ?_, ?_, ?_, ?_⟩
  · rw [hsr]
    rcases h1 : send_request (outcomes 1) with e1 | r1
    · rcases h2 : send_request (outcomes 2) with e2 | r2
      · rcases h3 : send_request (outcomes 3) with e3 | r3 <;>
          simp [retry_go, h1, h2, h3, MAX_RETRIES]
      · simp [retry_go, h1, h2, MAX_RETRIES]
    · simp [retry_go, h1, MAX_RETRIES]
  · intro r h1
    rw [hsr]
    simp [retry_go, h1]
  · intro e1 r h1 h2
    rw [hsr]
    simp [retry_go, h1, h2]
  · intro e1 e2 r h1 h2 h3
    rw [hsr]
    simp [retry_go, h1, h2, h3]
  · intro e1 e2 e3 h1 h2 h3
    rw [hsr]
    simp [retry_go, h1, h2, h3]
  · intro r hr
    simp [send_request, hr]

/-- Witness for C8: three transport failures exhaust the retry cap with
linear backoff and surface the last failure message. -/
theorem client_retry_policy_witness :
    send_request_with_retry (fun _ => AttemptOutcome.failure "boom") =
      (.error "boom", 3, [RETRY_DELAY_MS * 1, RETRY_DELAY_MS * 2]) :=
  (client_retry_policy (fun _ => AttemptOutcome.failure "boom")).2.2.2.2.1
    "boom" "boom" "boom" rfl rfl rfl

end PomodoroSpec
